import Mathlib

/-
Verification of the mondjs container library (src/package/src/lib/Result.ts,
src/package/src/lib/Option.ts) against its specification.

The two TypeScript classes Ok<T> / Err<E> (union Result<T, E>) and
Some<T> / None (union Option<T>) are embedded as two-constructor inductive
types; each method becomes a Lean function on the inductive, translated
body-by-body from the source.  Methods that `throw` are embedded as
Except-valued functions; the throw channel distinguishes `throw this.error`
(the raw wrapped payload) from `throw new Error(message)` (a JS Error object
carrying a message string), so the two failure shapes of the source stay
distinct.  JavaScript runtime values, needed where the source mixes payloads
with the `null` marker (`unpack`) or stores `null`/`undefined` payloads, are
modelled by the small dynamic domain `JSVal`.
-/

namespace Mond

/-- Dynamic JavaScript values, as far as the claims need them: the `null` and
`undefined` sentinels, numbers (idealised as rationals; no claim exercises a
float-specific behaviour), strings and booleans. -/
inductive JSVal where
  | null
  | undef
  | num (n : ℚ)
  | str (s : String)
  | boolean (b : Bool)
deriving DecidableEq

/-- A JavaScript `Error` object, reduced to the message it carries
(`new Error(message)` in the source). -/
structure JSError where
  message : String
deriving DecidableEq

/-- The failure signal a Result method can raise: either the raw wrapped
payload (`throw this.error` in `Err.unwrap`) or a JS `Error` object built
from a message string (`throw new Error(...)` in `expect`, `expectErr`,
`Ok.unwrapErr`). -/
inductive RFailure (E : Type) where
  | rawValue (e : E)
  | jsError (message : String)
deriving DecidableEq

/-- The union type `Result<T, E> = Ok<T> | Err<E>` of Result.ts: `Ok` holds
`readonly value: T`, `Err` holds `readonly error: E`. -/
inductive Result (T E : Type) where
  | Ok (value : T)
  | Err (error : E)
deriving DecidableEq

/-- The union type `Option<T> = Some<T> | None` of Option.ts: `Some` holds
`value: T`, `None` holds nothing. -/
inductive Option (T : Type) where
  | Some (value : T)
  | None
deriving DecidableEq

/-- Constructor function `ok<T>(value: T)` of Result.ts (line 481). -/
def ok {T E : Type} (value : T) : Result T E :=
  Result.Ok value

/-- Constructor function `err<E>(error: E)` of Result.ts (line 495). -/
def err {T E : Type} (error : E) : Result T E :=
  Result.Err error

/-- Constructor function `some<T>(value: T)` of Option.ts (line 206). -/
def some {T : Type} (value : T) : Option T :=
  Option.Some value

/-- Constructor function `none()` of Option.ts (line 219). -/
def none {T : Type} : Option T :=
  Option.None

namespace Result

variable {T E U : Type}

/-- `Ok.isOk` (line 25) returns true; `Err.isOk` (line 259) returns false. -/
def isOk : Result T E → Bool
  | .Ok _ => true
  | .Err _ => false

/-- `Ok.isErr` (line 38) returns false; `Err.isErr` (line 272) returns true. -/
def isErr : Result T E → Bool
  | .Ok _ => false
  | .Err _ => true

/-- `Ok.unwrap` (line 51) returns `this.value`; `Err.unwrap` (line 285)
does `throw this.error` — the raw wrapped error, not an Error wrapper. -/
def unwrap : Result T E → Except (RFailure E) T
  | .Ok v => Except.ok v
  | .Err e => Except.error (RFailure.rawValue e)

/-- `Ok.unwrapOr` (line 65) returns `this.value`; `Err.unwrapOr` (line 299)
returns `defaultValue`. -/
def unwrapOr : Result T E → T → T
  | .Ok v, _ => v
  | .Err _, d => d

/-- `Ok.expect` (line 79) returns `this.value`; `Err.expect` (line 313)
does `throw new Error(message)`. -/
def expect : Result T E → String → Except (RFailure E) T
  | .Ok v, _ => Except.ok v
  | .Err _, m => Except.error (RFailure.jsError m)

/-- `Ok.unwrapOrElse` (line 93) returns `this.value`; `Err.unwrapOrElse`
(line 327) returns `fallback(this.error)`. -/
def unwrapOrElse : Result T E → (E → T) → T
  | .Ok v, _ => v
  | .Err e, f => f e

/-- `Ok.andThen` (line 108) returns `fallback(this.value)`; `Err.andThen`
(line 342) returns `this` (the same Err instance, unchanged). -/
def andThen : Result T E → (T → Result U E) → Result U E
  | .Ok v, f => f v
  | .Err e, _ => .Err e

/-- `Ok.map` (line 161) returns `ok(mapper(this.value))`; `Err.map`
(line 393) returns `this` (the same Err instance, unchanged). -/
def map : Result T E → (T → U) → Result U E
  | .Ok v, f => .Ok (f v)
  | .Err e, _ => .Err e

/-- `Ok.match` (line 130) returns `ops.Ok(this.value)`; `Err.match`
(line 362) returns `ops.Error(this.error)`.  (`match` is a Lean keyword,
hence the name `matchWith`.) -/
def matchWith : Result T E → (T → U) → (E → U) → U
  | .Ok v, okH, _ => okH v
  | .Err e, _, errH => errH e

/-- `Ok.unpack` (line 145) returns `[this.value, null]`; `Err.unpack`
(line 377) returns `[null, this.error]`.  The empty marker is the JS value
`null`, living in the same dynamic domain as the payloads, so the embedding
is stated over `JSVal` payloads. -/
def unpack : Result JSVal JSVal → JSVal × JSVal
  | .Ok v => (v, JSVal.null)
  | .Err e => (JSVal.null, e)

/-- The message of the Error thrown by `Ok.unwrapErr` (line 182):
`Tried to \x27unwrapErr\x27 an Ok value: ${this.value}` — the template
literal renders the value into the message. -/
def unwrapErrMessage [ToString T] (v : T) : String :=
  "Tried to \x27unwrapErr\x27 an Ok value: " ++ toString v

/-- `Ok.unwrapErr` (line 181) does `throw new Error(...)` with the value
rendered into the message; `Err.unwrapErr` (line 413) returns `this.error`. -/
def unwrapErr [ToString T] : Result T E → Except (RFailure E) E
  | .Ok v => Except.error (RFailure.jsError (unwrapErrMessage v))
  | .Err e => Except.ok e

/-- `Ok.expectErr` (line 200) does `throw new Error(message)`;
`Err.expectErr` (line 432) returns `this.error`. -/
def expectErr : Result T E → String → Except (RFailure E) E
  | .Ok _, m => Except.error (RFailure.jsError m)
  | .Err e, _ => Except.ok e

/-- Method `Ok.ok` (line 216) returns `new Some(this.value)`; `Err.ok`
(line 448) returns `new None()`. -/
def ok : Result T E → Option T
  | .Ok v => Option.Some v
  | .Err _ => Option.None

/-- Method `Ok.err` (line 232) returns `new None()`; `Err.err` (line 464)
returns `new Some(this.error)`. -/
def err : Result T E → Option E
  | .Ok _ => Option.None
  | .Err e => Option.Some e

end Result

namespace Option

variable {T U : Type}

/-- `Some.isSome` (Option.ts line 23) returns true; `None.isSome`
(line 115) returns false. -/
def isSome : Option T → Bool
  | .Some _ => true
  | .None => false

/-- `Some.isNone` (line 36) returns false; `None.isNone` (line 128)
returns true. -/
def isNone : Option T → Bool
  | .Some _ => false
  | .None => true

/-- `Some.unwrap` (line 49) returns `this.value`; `None.unwrap` (line 141)
does `throw new Error("Called unwrap on a None value.")`. -/
def unwrap : Option T → Except JSError T
  | .Some v => Except.ok v
  | .None => Except.error (JSError.mk "Called unwrap on a None value.")

/-- `Some.unwrapOr` (line 63) returns `this.value`; `None.unwrapOr`
(line 155) returns `defaultValue`. -/
def unwrapOr : Option T → T → T
  | .Some v, _ => v
  | .None, d => d

/-- `Some.expect` (line 77) returns `this.value`; `None.expect` (line 169)
does `throw new Error(message)`. -/
def expect : Option T → String → Except JSError T
  | .Some v, _ => Except.ok v
  | .None, m => Except.error (JSError.mk m)

/-- `Some.match` (line 97) returns `ops.Some(this.value)`; `None.match`
(line 189) returns `ops.None()` — the None handler receives no argument. -/
def matchWith : Option T → (T → U) → (Unit → U) → U
  | .Some v, someH, _ => someH v
  | .None, _, noneH => noneH ()

end Option

namespace Result

variable {T E U : Type}

/-- The `match` bodies with their handler invocations made countable: the
returned pair of naturals counts how often `ops.Ok` and `ops.Error` are
applied.  `Ok.match` (line 130) applies `ops.Ok` exactly once to
`this.value`; `Err.match` (line 362) applies `ops.Error` exactly once to
`this.error`; no other application occurs in either body. -/
def matchCount (r : Result T E) (okH : T → U) (errH : E → U) : U × Nat × Nat :=
  match r with
  | .Ok v => (okH v, 1, 0)
  | .Err e => (errH e, 0, 1)

/-- `andThen` with the number of applications of `fallback` recorded:
`Ok.andThen` (line 108) applies it once, `Err.andThen` (line 342) never. -/
def andThenCount (r : Result T E) (f : T → Result U E) : Result U E × Nat :=
  match r with
  | .Ok v => (f v, 1)
  | .Err e => (.Err e, 0)

/-- `map` with the number of applications of `mapper` recorded:
`Ok.map` (line 161) applies it once, `Err.map` (line 393) never. -/
def mapCount (r : Result T E) (f : T → U) : Result U E × Nat :=
  match r with
  | .Ok v => (.Ok (f v), 1)
  | .Err e => (.Err e, 0)

/-- `unwrapOrElse` with the number of applications of `fallback` recorded:
`Ok.unwrapOrElse` (line 93) never applies it, `Err.unwrapOrElse`
(line 327) applies it once. -/
def unwrapOrElseCount (r : Result T E) (f : E → T) : T × Nat :=
  match r with
  | .Ok v => (v, 0)
  | .Err e => (f e, 1)

end Result

namespace Option

variable {T U : Type}

/-- `Option`'s `match` bodies with handler invocations made countable:
`Some.match` (Option.ts line 97) applies `ops.Some` exactly once to
`this.value`; `None.match` (line 189) applies `ops.None` exactly once,
passing no argument. -/
def matchCount (o : Option T) (someH : T → U) (noneH : Unit → U) :
    U × Nat × Nat :=
  match o with
  | .Some v => (someH v, 1, 0)
  | .None => (noneH (), 0, 1)

end Option

/-- One Result operation together with its arguments, for stating that no
sequence of operations mutates the receiving container (the result types
vary per operation and play no role in the receiver's state, so they are
instantiated at `T`). -/
inductive ROp (T E : Type) where
  | isOk
  | isErr
  | unwrap
  | unwrapOr (d : T)
  | expect (m : String)
  | unwrapOrElse (f : E → T)
  | andThen (f : T → Result T E)
  | mapOp (f : T → T)
  | matchOp (okH : T → T) (errH : E → T)
  | unwrapErr
  | expectErr (m : String)
  | okConv
  | errConv

/-- The state of the receiver after one method call, translated from the
method bodies of Result.ts: `value` and `error` are `readonly` fields
(lines 14, 248) and no method body assigns to `this`, so after each call
the receiver still holds its original variant and payload.  The right-hand
sides rebuild the receiver from those (unchanged) fields. -/
def Result.step {T E : Type} (r : Result T E) (_ : ROp T E) : Result T E :=
  match r with
  | .Ok v => .Ok v
  | .Err e => .Err e

/-- The receiver's state after a whole sequence of method calls. -/
def Result.runOps {T E : Type} (r : Result T E) (l : List (ROp T E)) :
    Result T E :=
  l.foldl Result.step r

/-- One Option operation together with its arguments, analogous to `ROp`. -/
inductive OOp (T : Type) where
  | isSome
  | isNone
  | unwrap
  | unwrapOr (d : T)
  | expect (m : String)
  | matchOp (someH : T → T) (noneH : Unit → T)

/-- The state of the receiver after one Option method call, translated from
the method bodies of Option.ts: no body assigns to `this`, so the receiver
keeps its variant and payload. -/
def Option.step {T : Type} (o : Option T) (_ : OOp T) : Option T :=
  match o with
  | .Some v => .Some v
  | .None => .None

/-- The receiver's state after a whole sequence of Option method calls. -/
def Option.runOps {T : Type} (o : Option T) (l : List (OOp T)) : Option T :=
  l.foldl Option.step o

/-- Modelled from the spec: the constant `ERROR_MESSAGE_DIVIDE`, imported by
the example `divide` from a `defs.ts`/`consts.ts` module that is not among
the available sources.  The spec's end-to-end scenario B fixes its value:
`divide(4,0)` yields failure("Division by zero."). -/
def ERROR_MESSAGE_DIVIDE : String :=
  "Division by zero."

/-- The example `divide(a, b)` (shared example module): returns
`err(ERROR_MESSAGE_DIVIDE)` when `a === 0 || b === 0`, else `ok(a / b)`.
JS numbers are idealised as rationals; the claims under verification only
evaluate `divide` at integer inputs on the guard path. -/
def divide (a b : ℚ) : Result ℚ String :=
  if a = 0 ∨ b = 0 then Mond.err ERROR_MESSAGE_DIVIDE
  else Mond.ok (a / b)

/-- Holds of the pair returned by `unpack` when exactly one slot is
populated (differs from the `null` empty marker) and the other is empty. -/
def exactlyOnePopulated (p : JSVal × JSVal) : Prop :=
  (p.1 ≠ JSVal.null ∧ p.2 = JSVal.null) ∨ (p.1 = JSVal.null ∧ p.2 ≠ JSVal.null)

instance (p : JSVal × JSVal) : Decidable (exactlyOnePopulated p) := by
  unfold exactlyOnePopulated
  infer_instance

/-- Helper: no single Result operation alters the receiver's state. -/
theorem Result.stepFixed {T E : Type} (r : Result T E) (op : ROp T E) :
    Result.step r op = r := by
  cases r <;> rfl

/-- Helper: no sequence of Result operations alters the receiver's state. -/
theorem Result.runOpsFixed {T E : Type} (r : Result T E) (l : List (ROp T E)) :
    r.runOps l = r := by
  induction l generalizing r with
  | nil => rfl
  | cons op l ih =>
      show List.foldl Result.step (Result.step r op) l = r
      rw [Result.stepFixed]
      exact ih r

/-- Helper: no single Option operation alters the receiver's state. -/
theorem Option.stepFixedO {T : Type} (o : Option T) (op : OOp T) :
    Option.step o op = o := by
  cases o <;> rfl

/-- Helper: no sequence of Option operations alters the receiver's state. -/
theorem Option.runOpsFixedO {T : Type} (o : Option T) (l : List (OOp T)) :
    o.runOps l = o := by
  induction l generalizing o with
  | nil => rfl
  | cons op l ih =>
      show List.foldl Option.step (Option.step o op) l = o
      rw [Option.stepFixedO]
      exact ih o

/-- C1 counterexample: for a payload whose value is itself the empty marker
(`null` in the dynamic domain), `ok(null).unpack()` returns `(null, null)`,
a pair in which neither slot is populated — refuting the claim that for
every payload type exactly one slot of the returned pair is populated. -/
theorem c1_unpack_null_counterexample :
    (Mond.ok JSVal.null : Result JSVal JSVal).unpack
        = (JSVal.null, JSVal.null) ∧
    ¬ exactlyOnePopulated
        ((Mond.ok JSVal.null : Result JSVal JSVal).unpack) :=
  ⟨rfl, by decide⟩

/-- C1 (amended): `Ok(v).unpack()` yields `(v, null)` and `Err(e).unpack()`
yields `(null, e)`; exactly one slot of the returned pair is populated if
and only if the wrapped payload is not itself the `null` empty marker (for
a payload equal to `null`, both slots are `null` and neither is
populated). -/
theorem c1_unpack_exclusivity (v e : JSVal) :
    (Mond.ok v : Result JSVal JSVal).unpack = (v, JSVal.null) ∧
    (Mond.err e : Result JSVal JSVal).unpack = (JSVal.null, e) ∧
    (exactlyOnePopulated ((Mond.ok v : Result JSVal JSVal).unpack)
        ↔ v ≠ JSVal.null) ∧
    (exactlyOnePopulated ((Mond.err e : Result JSVal JSVal).unpack)
        ↔ e ≠ JSVal.null) := by
  refine ⟨rfl, rfl, ?_, ?_⟩ <;>
    simp [exactlyOnePopulated, Mond.ok, Mond.err, Result.unpack]

/-- C2: `map` and `andThen` act only on the success channel — on `Err(e)`
both return the original `Err(e)` unchanged (same payload, zero invocations
of the supplied function), and on `Ok(v)` `andThen` returns `f(v)` while
`map` returns `Ok(f(v))`. -/
theorem c2_map_andThen_channels (T E U : Type) (e : E) (v : T)
    (f : T → Result U E) (g : T → U) :
    (Mond.err e : Result T E).andThen f = Mond.err e ∧
    (Mond.err e : Result T E).map g = Mond.err e ∧
    ((Mond.err e : Result T E).andThenCount f).2 = 0 ∧
    ((Mond.err e : Result T E).mapCount g).2 = 0 ∧
    (Mond.ok v : Result T E).andThen f = f v ∧
    (Mond.ok v : Result T E).map g = Mond.ok (g v) :=
  ⟨rfl, rfl, rfl, rfl, rfl, rfl⟩

/-- C3: `unwrap` on `Ok(v)` returns `v` and on `Err(e)` throws the wrapped
error value `e` itself (the raw payload, not an Error wrapper);
`unwrapErr` on `Err(e)` returns `e` and on `Ok(v)` throws a JS Error whose
message says unwrapErr was tried on an Ok value and renders `v` into the
message. -/
theorem c3_unwrap_unwrapErr (T E : Type) [ToString T] (v : T) (e : E) :
    (Mond.ok v : Result T E).unwrap = Except.ok v ∧
    (Mond.err e : Result T E).unwrap
        = Except.error (RFailure.rawValue e) ∧
    (Mond.err e : Result T E).unwrapErr = Except.ok e ∧
    (Mond.ok v : Result T E).unwrapErr
        = Except.error (RFailure.jsError
            ("Tried to \x27unwrapErr\x27 an Ok value: " ++ toString v)) :=
  ⟨rfl, rfl, rfl, rfl⟩

/-- C4: `expect(m)` on `Err(e)` and `expectErr(m)` on `Ok(v)` each throw a
JS Error carrying exactly the message `m` (the original payload does not
appear); on the matching variant `expect(m)` returns `v` and `expectErr(m)`
returns `e` without failing. -/
theorem c4_expect_expectErr (T E : Type) (v : T) (e : E) (m : String) :
    (Mond.err e : Result T E).expect m
        = Except.error (RFailure.jsError m) ∧
    (Mond.ok v : Result T E).expectErr m
        = Except.error (RFailure.jsError m) ∧
    (Mond.ok v : Result T E).expect m = Except.ok v ∧
    (Mond.err e : Result T E).expectErr m = Except.ok e :=
  ⟨rfl, rfl, rfl, rfl⟩

/-- C5: the Result-to-Option conversions round-trip per channel:
`ok(v).ok().unwrap() == v`, `err(e).err().unwrap() == e`,
`ok(v).err().isNone()`, and `err(e).ok().isNone()`. -/
theorem c5_option_roundtrip (T E : Type) (v : T) (e : E) :
    ((Mond.ok v : Result T E).ok).unwrap = Except.ok v ∧
    ((Mond.err e : Result T E).err).unwrap = Except.ok e ∧
    ((Mond.ok v : Result T E).err).isNone = true ∧
    ((Mond.err e : Result T E).ok).isNone = true :=
  ⟨rfl, rfl, rfl, rfl⟩

/-- C6: `some(v).unwrap()` returns `v`; `none().unwrap()` throws a JS Error
with the one fixed message "Called unwrap on a None value." (the same for
every None — the equation is constant); `unwrapOr` is total (never fails)
with `none().unwrapOr(d) = d` and `some(v).unwrapOr(d) = v`. -/
theorem c6_option_unwrap_unwrapOr (T : Type) (v d : T) :
    (Mond.some v : Option T).unwrap = Except.ok v ∧
    (Mond.none : Option T).unwrap
        = Except.error (JSError.mk "Called unwrap on a None value.") ∧
    (Mond.none : Option T).unwrapOr d = d ∧
    (Mond.some v : Option T).unwrapOr d = v :=
  ⟨rfl, rfl, rfl, rfl⟩

/-- C7: `match` runs exactly one of the two handlers per call (the Ok
handler on `Ok(v)` with argument `v`, the error handler on `Err(e)` with
argument `e`) and returns its result; every function passed to `match`,
`andThen`, `map` or `unwrapOrElse` is applied at most once during the call
(the embedding is a total function, so every application happens
synchronously within the call); Option's `match` is likewise exhaustive,
its None handler receiving no argument. -/
theorem c7_handler_invocation (T E U : Type) (v : T) (e : E)
    (okH : T → U) (errH : E → U) (someH : T → U) (noneH : Unit → U) :
    (Result.Ok v : Result T E).matchCount okH errH = (okH v, 1, 0) ∧
    (Result.Err e : Result T E).matchCount okH errH = (errH e, 0, 1) ∧
    (∀ r : Result T E,
      (r.matchCount okH errH).2.1 + (r.matchCount okH errH).2.2 = 1 ∧
      (r.matchCount okH errH).1 = r.matchWith okH errH) ∧
    (∀ (r : Result T E) (f : T → Result U E),
      (r.andThenCount f).1 = r.andThen f ∧ (r.andThenCount f).2 ≤ 1) ∧
    (∀ (r : Result T E) (g : T → U),
      (r.mapCount g).1 = r.map g ∧ (r.mapCount g).2 ≤ 1) ∧
    (∀ (r : Result T E) (k : E → T),
      (r.unwrapOrElseCount k).1 = r.unwrapOrElse k ∧
      (r.unwrapOrElseCount k).2 ≤ 1) ∧
    (Option.Some v : Option T).matchCount someH noneH = (someH v, 1, 0) ∧
    (Option.None : Option T).matchCount someH noneH = (noneH (), 0, 1) ∧
    (∀ o : Option T,
      (o.matchCount someH noneH).2.1 + (o.matchCount someH noneH).2.2 = 1 ∧
      (o.matchCount someH noneH).1 = o.matchWith someH noneH) := by
  refine ⟨rfl, rfl, ?_, ?_, ?_, ?_, rfl, rfl, ?_⟩
  · intro r; cases r <;> exact ⟨rfl, rfl⟩
  · intro r f; cases r <;> exact ⟨rfl, by simp [Result.andThenCount]⟩
  · intro r g; cases r <;> exact ⟨rfl, by simp [Result.mapCount]⟩
  · intro r k; cases r <;> exact ⟨rfl, by simp [Result.unwrapOrElseCount]⟩
  · intro o; cases o <;> exact ⟨rfl, rfl⟩

/-- C8: both containers are immutable — after any sequence of Result or
Option operations the receiving container still holds its original variant
and payload (so `isOk`/`isErr`/`isSome`/`isNone` keep returning the same
answers), and the transforming operations `map`/`andThen` build their
results out of new constructor applications while the receiver is
unchanged. -/
theorem c8_immutability (T E : Type) (r : Result T E) (o : Option T)
    (l : List (ROp T E)) (k : List (OOp T)) (f : T → T) (v : T) :
    r.runOps l = r ∧
    (r.runOps l).isOk = r.isOk ∧
    (r.runOps l).isErr = r.isErr ∧
    o.runOps k = o ∧
    (o.runOps k).isSome = o.isSome ∧
    (o.runOps k).isNone = o.isNone ∧
    (Mond.ok v : Result T E).map f = Result.Ok (f v) ∧
    Result.step (Mond.ok v : Result T E) (ROp.mapOp f) = Mond.ok v := by
  refine ⟨Result.runOpsFixed r l, ?_, ?_, Option.runOpsFixedO o k, ?_, ?_, rfl, rfl⟩
  · rw [Result.runOpsFixed]
  · rw [Result.runOpsFixed]
  · rw [Option.runOpsFixedO]
  · rw [Option.runOpsFixedO]

/-- C9: `divide(4,0)` yields `err("Division by zero.")`; on that Result,
`unwrapOr(-1)` returns `-1` and `unwrap()` throws the wrapped error — a
failure carrying that same message. -/
theorem c9_divide_by_zero :
    divide 4 0 = Mond.err "Division by zero." ∧
    (divide 4 0).unwrapOr (-1) = -1 ∧
    (divide 4 0).unwrap
        = Except.error (RFailure.rawValue "Division by zero.") := by
  have h : divide 4 0 = Mond.err "Division by zero." := by
    simp [divide, ERROR_MESSAGE_DIVIDE]
  exact ⟨h, by rw [h]; rfl, by rw [h]; rfl⟩

/-- C10: nullish payloads are first-class — `ok(null)`, `ok(undefined)`,
`some(null)` and `some(undefined)` are genuine Ok/Some variants whose
`unwrap` returns the stored nullish value without failing, and for every
dynamic value the active variant is fixed by the constructor used, never
by comparing the payload against a null/undefined sentinel. -/
theorem c10_nullish_payloads :
    (Mond.ok JSVal.null : Result JSVal JSVal).isOk = true ∧
    (Mond.ok JSVal.null : Result JSVal JSVal).unwrap
        = Except.ok JSVal.null ∧
    (Mond.ok JSVal.undef : Result JSVal JSVal).isOk = true ∧
    (Mond.ok JSVal.undef : Result JSVal JSVal).unwrap
        = Except.ok JSVal.undef ∧
    (Mond.some JSVal.null : Option JSVal).isSome = true ∧
    (Mond.some JSVal.null : Option JSVal).unwrap
        = Except.ok JSVal.null ∧
    (Mond.some JSVal.undef : Option JSVal).isSome = true ∧
    (Mond.some JSVal.undef : Option JSVal).unwrap
        = Except.ok JSVal.undef ∧
    (∀ v : JSVal,
      (Mond.ok v : Result JSVal JSVal).isOk = true ∧
      (Mond.some v : Option JSVal).isSome = true) :=
  ⟨rfl, rfl, rfl, rfl, rfl, rfl, rfl, rfl, fun _ => ⟨rfl, rfl⟩⟩

end Mond
